import Mathlib

/-!
Shallow embedding of src/main.js, the client-side behavior layer of a
static photography portfolio: navigation overlay, lightbox gallery,
gallery category filters, smooth anchor scrolling, header scroll styling
and lazy-image fade-in.  DOM element state is modelled explicitly as
record fields; each event handler of the source becomes a state
transformer; JS property access on a possibly-null element is modelled
with Except.
-/

namespace VossPhoto

/-- JS setAttribute stringifies booleans: the strings that main.js writes
into aria-expanded / aria-hidden (lines 71-72, 86-87). -/
def jsBoolString (b : Bool) : String := if b then "true" else "false"

/-- The JS idiom of main.js lines 138 and 173,
images[i].querySelector(img)?.alt || default: an absent img child gives
undefined, and both undefined and the empty string are falsy, so both
fall back to the default. -/
def jsAltOr (a : Option String) (d : String) : String :=
  match a with
  | none => d
  | some "" => d
  | some s => s

/- =========================================================
   NAVIGATION OVERLAY — main.js lines 47-111
   ========================================================= -/

/-- Mutable DOM state touched by initNavigation: the is-active class on
.hamburger and .nav-overlay, the is-light class on .logo, the body
overflow style, and the two ARIA attributes. -/
structure NavState where
  hamburgerActive : Bool
  overlayActive : Bool
  logoLight : Bool
  bodyOverflow : String
  ariaExpanded : String
  ariaHidden : String
deriving DecidableEq

/-- toggleNav, main.js lines 56-73: read isActive from the hamburger
class, toggle both classes (and the logo class when a .logo element
exists), set body overflow from the OLD state, and write the ARIA
attributes.  hasLogo records whether document.querySelector found a
.logo element. -/
def toggleNav (hasLogo : Bool) (s : NavState) : NavState :=
  let isActive := s.hamburgerActive
  { hamburgerActive := !s.hamburgerActive
    overlayActive := !s.overlayActive
    logoLight := if hasLogo then !s.logoLight else s.logoLight
    bodyOverflow := if isActive then "" else "hidden"
    ariaExpanded := jsBoolString (!isActive)
    ariaHidden := jsBoolString isActive }

/-- closeNav, main.js lines 76-88: unconditionally clear every marker and
restore body scroll. -/
def closeNav (hasLogo : Bool) (s : NavState) : NavState :=
  { hamburgerActive := false
    overlayActive := false
    logoLight := if hasLogo then false else s.logoLight
    bodyOverflow := ""
    ariaExpanded := "false"
    ariaHidden := "true" }

/-- The two operations reachable through initNavigation event listeners. -/
inductive NavOp where
  | toggle
  | close
deriving DecidableEq

def applyNavOp (hasLogo : Bool) (s : NavState) (op : NavOp) : NavState :=
  match op with
  | NavOp.toggle => toggleNav hasLogo s
  | NavOp.close => closeNav hasLogo s

/-- A sequence of toggle/close operations applied in order. -/
def runNav (hasLogo : Bool) (s : NavState) (ops : List NavOp) : NavState :=
  ops.foldl (applyNavOp hasLogo) s

/-- The mutual-consistency invariant of the spec: overlay class agrees
with hamburger class, body overflow is hidden exactly when active, and
the ARIA attributes mirror the state (aria-expanded = active,
aria-hidden = not active). -/
def navConsistent (s : NavState) : Bool :=
  (s.overlayActive == s.hamburgerActive) &&
  (s.bodyOverflow == (if s.hamburgerActive then "hidden" else "")) &&
  (s.ariaExpanded == jsBoolString s.hamburgerActive) &&
  (s.ariaHidden == jsBoolString (!s.hamburgerActive))

/-- The consistent initial page state: nothing active, scroll unlocked,
ARIA attributes as the markup contract sets them. -/
def navInitialState : NavState :=
  { hamburgerActive := false
    overlayActive := false
    logoLight := false
    bodyOverflow := ""
    ariaExpanded := "false"
    ariaHidden := "true" }

/- =========================================================
   LIGHTBOX GALLERY — main.js lines 121-260
   ========================================================= -/

/-- A gallery item carrying a data-lightbox attribute (the image URL) and
the alt text of its descendant img element, when it has one. -/
structure GalleryItem where
  lightboxData : String
  imgAlt : Option String
deriving DecidableEq

/-- Where focus was last moved by the lightbox code. -/
inductive FocusTarget where
  | galleryItem (i : Nat)
  | closeButton
deriving DecidableEq

/-- Mutable state of the lightbox component: the closure variable
currentIndex, the is-active class on .lightbox, the src/alt/opacity of
.lightbox__image, the body overflow style, the focused element, and the
two closure variables of the touch-swipe support.  Touch coordinates are
whole-pixel screenX values, modelled as integers. -/
structure LightboxState where
  currentIndex : Nat
  active : Bool
  imageSrc : String
  imageAlt : String
  imageOpacity : String
  bodyOverflow : String
  focused : Option FocusTarget
  touchStartX : Int
  touchEndX : Int
deriving DecidableEq

/-- The DOM queried by initLightbox, main.js lines 122-127: the
[data-lightbox] items and presence of each queried element. -/
structure LightboxDom where
  galleryItems : List GalleryItem
  lightboxPresent : Bool
  lightboxImagePresent : Bool
  lightboxClosePresent : Bool
  lightboxPrevPresent : Bool
  lightboxNextPresent : Bool
deriving DecidableEq

/-- The guard of main.js line 129:
if (!galleryItems.length || !lightbox) return;  — true means initLightbox
returns early and the component is never wired. -/
def initLightboxReturnsEarly (dom : LightboxDom) : Bool :=
  (dom.galleryItems.length == 0) || !dom.lightboxPresent

/-- openLightbox, main.js lines 135-147.  The function dereferences
lightboxImage (lines 140-141) and lightboxClose (line 146) without any
null check, so when either element is absent the corresponding property
access throws a TypeError; the Except error carries that outcome.  The
writes happen in source order: currentIndex first, then the image
element, then the is-active class and scroll lock, then focus. -/
def openLightbox (dom : LightboxDom) (st : LightboxState) (index : Nat) :
    Except String LightboxState :=
  let st1 := { st with currentIndex := index }
  match dom.galleryItems[index]? with
  | none => Except.error "TypeError: Cannot read properties of undefined"
  | some item =>
    let imgSrc := item.lightboxData
    let imgAlt := jsAltOr item.imgAlt "Gallery image"
    if dom.lightboxImagePresent then
      let st2 := { st1 with
        imageSrc := imgSrc
        imageAlt := imgAlt
        active := true
        bodyOverflow := "hidden" }
      if dom.lightboxClosePresent then
        Except.ok { st2 with focused := some FocusTarget.closeButton }
      else Except.error "TypeError: lightboxClose is null"
    else Except.error "TypeError: lightboxImage is null"

/-- closeLightbox, main.js lines 150-156: drop the is-active class,
restore scroll, and return focus to the gallery item at the CURRENT
index. -/
def closeLightbox (st : LightboxState) : LightboxState :=
  { st with
    active := false
    bodyOverflow := ""
    focused := some (FocusTarget.galleryItem st.currentIndex) }

/-- The index expression of nextImage, main.js line 160:
(currentIndex + 1) % images.length. -/
def nextIndex (i N : Nat) : Nat := (i + 1) % N

/-- The index expression of prevImage, main.js line 166:
(currentIndex - 1 + images.length) % images.length.  With 0 ≤ i and
1 ≤ N the JS dividend i - 1 + N is non-negative, so the JS remainder
agrees with natural-number arithmetic on i + N - 1. -/
def prevIndex (i N : Nat) : Nat := (i + N - 1) % N

/-- updateLightboxImage, main.js lines 171-183: read src and alt of the
item at currentIndex, fade out, and after the 200ms timer swap them in
and restore opacity.  The model records the settled state after that
timer has fired.  The none branch (index out of the item list) is
unreachable for indices kept in range by nextIndex/prevIndex. -/
def updateLightboxImage (items : List GalleryItem) (st : LightboxState) :
    LightboxState :=
  match items[st.currentIndex]? with
  | some item =>
    { st with
      imageSrc := item.lightboxData
      imageAlt := jsAltOr item.imgAlt "Gallery image"
      imageOpacity := "1" }
  | none => st

/-- nextImage, main.js lines 159-162. -/
def nextImage (items : List GalleryItem) (st : LightboxState) : LightboxState :=
  updateLightboxImage items
    { st with currentIndex := nextIndex st.currentIndex items.length }

/-- prevImage, main.js lines 165-168. -/
def prevImage (items : List GalleryItem) (st : LightboxState) : LightboxState :=
  updateLightboxImage items
    { st with currentIndex := prevIndex st.currentIndex items.length }

/-- handleSwipe, main.js lines 248-259: diff = touchStartX - touchEndX;
return unchanged when abs diff is strictly below the 50px threshold,
otherwise navigate next on a positive diff (swipe left) and prev
otherwise. -/
def handleSwipe (items : List GalleryItem) (st : LightboxState) : LightboxState :=
  let diff := st.touchStartX - st.touchEndX
  if |diff| < 50 then st
  else if diff > 0 then nextImage items st
  else prevImage items st

/-- The touchstart listener, main.js lines 239-241: record the screenX of
the touch. -/
def touchstartHandler (st : LightboxState) (x : Int) : LightboxState :=
  { st with touchStartX := x }

/-- The touchend listener, main.js lines 243-246: record the screenX and
run handleSwipe.  Registered on the lightbox element with no check of
the is-active class. -/
def touchendHandler (items : List GalleryItem) (st : LightboxState) (x : Int) :
    LightboxState :=
  handleSwipe items { st with touchEndX := x }

/-- The document keydown listener, main.js lines 212-226: return early
unless the lightbox carries is-active, then dispatch on the key. -/
def keydownHandler (items : List GalleryItem) (st : LightboxState) (key : String) :
    LightboxState :=
  if !st.active then st
  else if key == "Escape" then closeLightbox st
  else if key == "ArrowRight" then nextImage items st
  else if key == "ArrowLeft" then prevImage items st
  else st

/- =========================================================
   GALLERY FILTERS — main.js lines 270-301
   ========================================================= -/

/-- Per-item mutable state written by the filter click handler: the
inline display style and the is-visible class. -/
structure ItemVis where
  display : String
  visible : Bool
deriving DecidableEq

/-- Mutable state of the filter component: the is-active flag of each
filter button (by position) and the visibility state of each gallery
item (by position). -/
structure FilterState where
  activeFlags : List Bool
  itemStates : List ItemVis
deriving DecidableEq

/-- The click handler of main.js lines 277-299 for the button at position
b.  buttonFilters are the data-filter values of the buttons, itemCats
the data-category values of the items.  Every is-active flag is cleared
and the clicked one set; every item is shown (display cleared, and the
is-visible class re-added by the 50ms timer, modelled as settled) when
filter is all or matches its category, else hidden immediately. -/
def clickFilter (buttonFilters itemCats : List String) (_s : FilterState)
    (b : Nat) : FilterState :=
  let filter := buttonFilters.getD b ""
  { activeFlags := (List.range buttonFilters.length).map (fun j => j == b)
    itemStates := itemCats.map (fun c =>
      if filter == "all" || c == filter then { display := "", visible := true }
      else { display := "none", visible := false }) }

/- =========================================================
   SMOOTH ANCHOR SCROLL — main.js lines 311-331
   ========================================================= -/

/-- The selector of main.js line 312, a[href^="#"]:not([href="#"]):
the href starts with the hash character and is not just "#". -/
def isAnchorLink (href : String) : Bool :=
  match href.data with
  | [] => false
  | c :: rest => c == '#' && rest != []

/-- document.querySelector(targetId) for a fragment selector, main.js
line 317: the document modelled as the list of element ids, matched
against the selector string "#" ++ id; the first match is returned. -/
def querySelectorId (ids : List String) (sel : String) : Option String :=
  ids.find? (fun i => "#" ++ i == sel)

/-- A scrollIntoView call as issued on main.js lines 321-324. -/
structure ScrollIntoViewCall where
  elementId : String
  behavior : String
  blockAlign : String
deriving DecidableEq

/-- Observable effects of one click on an anchor link: whether
preventDefault ran, the scrollIntoView calls issued, and the hashes
pushed into history. -/
structure AnchorClickResult where
  defaultPrevented : Bool
  scrolls : List ScrollIntoViewCall
  historyPushes : List String
deriving DecidableEq

/-- The click handler of main.js lines 315-329.  preventDefault,
scrollIntoView and pushState all sit INSIDE the if (targetElement)
branch; with no matching element the handler performs no action at all.
history.pushState never scrolls, so the only scroll effect is the single
scrollIntoView call. -/
def anchorClickHandler (ids : List String) (href : String) : AnchorClickResult :=
  match querySelectorId ids href with
  | some el =>
    { defaultPrevented := true
      scrolls := [{ elementId := el, behavior := "smooth", blockAlign := "start" }]
      historyPushes := [href] }
  | none =>
    { defaultPrevented := false, scrolls := [], historyPushes := [] }

/- =========================================================
   HEADER SCROLL BEHAVIOR — main.js lines 341-371
   ========================================================= -/

/-- updateHeader, main.js lines 348-354: the is-scrolled class on .header
after one run, as a function of window.scrollY (a JS number, modelled as
a rational) and the prior class state; classList.add/remove make the
result independent of the prior state. -/
def updateHeader (scrollY : ℚ) (hadClass : Bool) : Bool :=
  if scrollY > 50 then true
  else false

/-- The eager call at the end of initHeaderScroll, main.js line 370: the
header class state right after initialization. -/
def initHeaderScrollEager (scrollY : ℚ) (hadClass : Bool) : Bool :=
  updateHeader scrollY hadClass

/- =========================================================
   IMAGE LOADING ENHANCEMENT — main.js lines 395-418
   ========================================================= -/

/-- An img[loading="lazy"] element: src, the complete flag, the natural
height, and whether the is-loaded class is present. -/
structure LazyImg where
  src : String
  complete : Bool
  naturalHeight : Nat
  classLoaded : Bool
deriving DecidableEq

/-- The two ways an image load can finish. -/
inductive LoadEvent where
  | success
  | failure
deriving DecidableEq

/-- The per-image body of initImageLoading, main.js lines 400-417: when
the image is already complete with non-zero natural height, mark it
immediately and return (no listeners registered, second component
false); otherwise register the load and error listeners (second
component true). -/
def initLazyImage (img : LazyImg) : LazyImg × Bool :=
  if img.complete && img.naturalHeight != 0 then
    ({ img with classLoaded := true }, false)
  else (img, true)

/-- Delivery of a load or error event after initialization: the
listeners of main.js lines 408-416 add the is-loaded class in both
cases, and the error listener also emits a console.warn diagnostic.
When no listeners were registered the event has no effect. -/
def fireImgEvent (img : LazyImg) (registered : Bool) (ev : LoadEvent) :
    LazyImg × List String :=
  if registered then
    match ev with
    | LoadEvent.success => ({ img with classLoaded := true }, [])
    | LoadEvent.failure =>
      ({ img with classLoaded := true }, ["Failed to load image: " ++ img.src])
  else (img, [])

/-- A whole run for one image: initialization followed by at most one
load-finished event (none models an image that never finishes). -/
def runLazyImage (img : LazyImg) (ev : Option LoadEvent) : LazyImg × List String :=
  let p := initLazyImage img
  match ev with
  | none => (p.1, [])
  | some e => fireImgEvent p.1 p.2 e

/- =========================================================
   Concrete fixtures used by witnesses and counterexamples
   ========================================================= -/

/-- A closed, inactive lightbox state with index 0 and no touches. -/
def sampleState : LightboxState :=
  { currentIndex := 0
    active := false
    imageSrc := ""
    imageAlt := ""
    imageOpacity := "1"
    bodyOverflow := ""
    focused := none
    touchStartX := 0
    touchEndX := 0 }

/-- A two-image gallery. -/
def twoItems : List GalleryItem :=
  [{ lightboxData := "a.jpg", imgAlt := some "A" },
   { lightboxData := "b.jpg", imgAlt := some "B" }]

/-- An open lightbox at index 0 whose recorded touch delta is exactly
50px (touchStartX 50, touchEndX 0). -/
def stSwipe50 : LightboxState :=
  { currentIndex := 0
    active := true
    imageSrc := "a.jpg"
    imageAlt := "A"
    imageOpacity := "1"
    bodyOverflow := "hidden"
    focused := none
    touchStartX := 50
    touchEndX := 0 }

/-- A CLOSED (inactive) lightbox state at index 0 with touchStartX 100:
a swipe recorded while the lightbox does not carry is-active. -/
def stInactiveTouch : LightboxState :=
  { currentIndex := 0
    active := false
    imageSrc := ""
    imageAlt := ""
    imageOpacity := "1"
    bodyOverflow := ""
    focused := none
    touchStartX := 100
    touchEndX := 0 }

/-- A DOM where the gallery items and the lightbox root exist but both
.lightbox__image and .lightbox__close are missing. -/
def domNoImageNoClose : LightboxDom :=
  { galleryItems := [{ lightboxData := "photo1.jpg", imgAlt := some "Photo" }]
    lightboxPresent := true
    lightboxImagePresent := false
    lightboxClosePresent := false
    lightboxPrevPresent := false
    lightboxNextPresent := false }

/-- A lazy image that is not yet complete and carries no is-loaded
class. -/
def imgFresh : LazyImg :=
  { src := "x.jpg"
    complete := false
    naturalHeight := 0
    classLoaded := false }

/-- A DOM where every element initLightbox queries is present. -/
def domAllPresent : LightboxDom :=
  { galleryItems := [{ lightboxData := "photo1.jpg", imgAlt := some "Photo" }]
    lightboxPresent := true
    lightboxImagePresent := true
    lightboxClosePresent := true
    lightboxPrevPresent := true
    lightboxNextPresent := true }

end VossPhoto

namespace VossPhoto

/- =========================================================
   Helper lemmas
   ========================================================= -/

theorem nextIndex_lt (i N : Nat) (hN : 0 < N) : nextIndex i N < N :=
  Nat.mod_lt _ hN

theorem prevIndex_lt (i N : Nat) (hN : 0 < N) : prevIndex i N < N :=
  Nat.mod_lt _ hN

theorem prevIndex_nextIndex (i N : Nat) (hN : 0 < N) (hi : i < N) :
    prevIndex (nextIndex i N) N = i := by
  unfold nextIndex prevIndex
  rcases Nat.lt_or_ge (i + 1) N with h | h
  · rw [Nat.mod_eq_of_lt h]
    have e : i + 1 + N - 1 = i + N := by omega
    rw [e, Nat.add_mod_right, Nat.mod_eq_of_lt hi]
  · have e : i + 1 = N := by omega
    rw [e, Nat.mod_self]
    have e2 : 0 + N - 1 = N - 1 := by omega
    rw [e2, Nat.mod_eq_of_lt (show N - 1 < N by omega)]
    omega

theorem nextIndex_prevIndex (i N : Nat) (hN : 0 < N) (hi : i < N) :
    nextIndex (prevIndex i N) N = i := by
  unfold nextIndex prevIndex
  rcases Nat.eq_zero_or_pos i with h | h
  · subst h
    have e : 0 + N - 1 = N - 1 := by omega
    rw [e, Nat.mod_eq_of_lt (show N - 1 < N by omega)]
    have e2 : N - 1 + 1 = N := by omega
    rw [e2, Nat.mod_self]
  · have e : i + N - 1 = (i - 1) + N := by omega
    rw [e, Nat.add_mod_right, Nat.mod_eq_of_lt (show i - 1 < N by omega)]
    have e2 : i - 1 + 1 = i := by omega
    rw [e2, Nat.mod_eq_of_lt hi]

theorem nextIndex_iterate (N i : Nat) (hi : i < N) (k : Nat) :
    (fun j => nextIndex j N)^[k] i = (i + k) % N := by
  induction k with
  | zero => simpa using Nat.mod_eq_of_lt hi |>.symm
  | succ k ih =>
    rw [Function.iterate_succ_apply', ih]
    show ((i + k) % N + 1) % N = (i + (k + 1)) % N
    rw [Nat.mod_add_mod, Nat.add_assoc]

theorem nextIndex_ne (i N : Nat) (hN : 2 ≤ N) (hi : i < N) :
    nextIndex i N ≠ i := by
  unfold nextIndex
  rcases Nat.lt_or_ge (i + 1) N with h | h
  · rw [Nat.mod_eq_of_lt h]; omega
  · have e : i + 1 = N := by omega
    rw [e, Nat.mod_self]; omega

theorem prevIndex_ne (i N : Nat) (hN : 2 ≤ N) (hi : i < N) :
    prevIndex i N ≠ i := by
  unfold prevIndex
  rcases Nat.eq_zero_or_pos i with h | h
  · subst h
    have e : 0 + N - 1 = N - 1 := by omega
    rw [e, Nat.mod_eq_of_lt (show N - 1 < N by omega)]
    omega
  · have e : i + N - 1 = (i - 1) + N := by omega
    rw [e, Nat.add_mod_right, Nat.mod_eq_of_lt (show i - 1 < N by omega)]
    omega

theorem updateLightboxImage_currentIndex (items : List GalleryItem)
    (st : LightboxState) :
    (updateLightboxImage items st).currentIndex = st.currentIndex := by
  unfold updateLightboxImage
  cases items[st.currentIndex]? <;> rfl

theorem nextImage_currentIndex (items : List GalleryItem) (st : LightboxState) :
    (nextImage items st).currentIndex = nextIndex st.currentIndex items.length := by
  unfold nextImage
  rw [updateLightboxImage_currentIndex]

theorem prevImage_currentIndex (items : List GalleryItem) (st : LightboxState) :
    (prevImage items st).currentIndex = prevIndex st.currentIndex items.length := by
  unfold prevImage
  rw [updateLightboxImage_currentIndex]

/- =========================================================
   C1 — lightbox index invariant and wrap-around
   ========================================================= -/

/-- C1: for a gallery of N images (N > 0) and any index i in [0, N),
nextImage advances the cursor to (i+1) mod N and prevImage to
(i-1+N) mod N, so the cursor always stays in [0, N); prev is the inverse
of next and vice versa; applying next N times returns to the original
index; and in the spec example N = 5, start = 0, prev yields index 4. -/
theorem c1_lightbox_index_wraparound (items : List GalleryItem)
    (st : LightboxState) (i N : Nat) (hN : 0 < N) (hi : i < N) :
    (nextImage items st).currentIndex = nextIndex st.currentIndex items.length ∧
    (prevImage items st).currentIndex = prevIndex st.currentIndex items.length ∧
    nextIndex i N = (i + 1) % N ∧
    prevIndex i N = (i + N - 1) % N ∧
    nextIndex i N < N ∧
    prevIndex i N < N ∧
    prevIndex (nextIndex i N) N = i ∧
    nextIndex (prevIndex i N) N = i ∧
    (fun j => nextIndex j N)^[N] i = i ∧
    prevIndex 0 5 = 4 := by
  refine ⟨nextImage_currentIndex items st, prevImage_currentIndex items st,
    rfl, rfl, nextIndex_lt i N hN, prevIndex_lt i N hN,
    prevIndex_nextIndex i N hN hi, nextIndex_prevIndex i N hN hi, ?_, by decide⟩
  rw [nextIndex_iterate N i hi N, Nat.add_mod_right, Nat.mod_eq_of_lt hi]

/-- C1 witness: the theorem instantiated at the spec example N = 5 with
start index 0 and a concrete two-item gallery state. -/
theorem c1_lightbox_index_wraparound_witness :
    prevIndex (nextIndex 0 5) 5 = 0 ∧
    nextIndex (prevIndex 0 5) 5 = 0 ∧
    (fun j => nextIndex j 5)^[5] 0 = 0 ∧
    prevIndex 0 5 = 4 := by
  have h := c1_lightbox_index_wraparound twoItems sampleState 0 5
    (by decide) (by decide)
  exact ⟨h.2.2.2.2.2.2.1, h.2.2.2.2.2.2.2.1, h.2.2.2.2.2.2.2.2.1,
    h.2.2.2.2.2.2.2.2.2⟩

end VossPhoto

namespace VossPhoto

/- =========================================================
   C2 — missing-element safety of the lightbox
   ========================================================= -/

/-- C2 counterexample: with the gallery items and the lightbox root
present but .lightbox__image (and .lightbox__close) absent, the init
guard does NOT return early, and opening the lightbox raises a
TypeError instead of surfacing no exception: openLightbox dereferences
lightboxImage and lightboxClose without a null check. -/
theorem c2_open_missing_elements_throws :
    initLightboxReturnsEarly domNoImageNoClose = false ∧
    openLightbox domNoImageNoClose sampleState 0 =
      Except.error "TypeError: lightboxImage is null" := by
  exact ⟨rfl, rfl⟩

/-- C2 amended: the early-return guard of initLightbox covers only the
gallery items and the lightbox root, so with those present the component
is wired; opening the lightbox then completes without an exception if
and only if both .lightbox__image and .lightbox__close are present —
when either is absent, openLightbox throws a TypeError. -/
theorem c2_lightbox_guard_and_open (dom : LightboxDom) (st : LightboxState)
    (i : Nat) (hItems : dom.galleryItems ≠ []) (hRoot : dom.lightboxPresent = true)
    (hi : i < dom.galleryItems.length) :
    initLightboxReturnsEarly dom = false ∧
    ((∃ s, openLightbox dom st i = Except.ok s) ↔
      dom.lightboxImagePresent = true ∧ dom.lightboxClosePresent = true) := by
  constructor
  · have hlen : dom.galleryItems.length ≠ 0 := by
      intro h0
      exact hItems (List.length_eq_zero.mp h0)
    simp [initLightboxReturnsEarly, hRoot, hlen]
  · have hitem : dom.galleryItems[i]? = some dom.galleryItems[i] :=
      List.getElem?_eq_getElem hi
    unfold openLightbox
    rw [hitem]
    cases hImg : dom.lightboxImagePresent <;>
      cases hCls : dom.lightboxClosePresent <;> simp

/-- C2 witness: the amended theorem at a DOM where every queried element
exists, with a concrete state and index 0. -/
theorem c2_lightbox_guard_and_open_witness :
    initLightboxReturnsEarly domAllPresent = false ∧
    ((∃ s, openLightbox domAllPresent sampleState 0 = Except.ok s) ↔
      domAllPresent.lightboxImagePresent = true ∧
      domAllPresent.lightboxClosePresent = true) :=
  c2_lightbox_guard_and_open domAllPresent sampleState 0 (by decide) rfl
    (by decide)

/- =========================================================
   C3 — anchor click with no matching element
   ========================================================= -/

/-- C3 counterexample: for a same-page hash link whose hash matches no
element, the handler does NOT cancel default navigation — preventDefault
sits inside the if (targetElement) branch, so defaultPrevented is false,
contradicting the claim that default navigation is cancelled. -/
theorem c3_no_match_leaves_default :
    isAnchorLink "#missing" = true ∧
    querySelectorId ["section1", "section2"] "#missing" = none ∧
    (anchorClickHandler ["section1", "section2"] "#missing").defaultPrevented
      = false := by
  exact ⟨rfl, rfl, rfl⟩

/-- C3 amended: when the hash matches no element the handler performs no
action at all — it does not cancel default navigation (so default link
behavior applies), issues no scroll, and pushes nothing into history. -/
theorem c3_no_match_is_total_noop (ids : List String) (href : String)
    (hl : isAnchorLink href = true) (hm : querySelectorId ids href = none) :
    anchorClickHandler ids href =
      { defaultPrevented := false, scrolls := [], historyPushes := [] } := by
  unfold anchorClickHandler
  rw [hm]

/-- C3 witness: the amended theorem at a concrete document with no
element for the hash. -/
theorem c3_no_match_is_total_noop_witness :
    anchorClickHandler ["section1"] "#missing" =
      { defaultPrevented := false, scrolls := [], historyPushes := [] } :=
  c3_no_match_is_total_noop ["section1"] "#missing" rfl rfl

/- =========================================================
   C6 — anchor click with a matching element
   ========================================================= -/

/-- C6: for a same-page hash link whose hash matches an element, the
handler cancels default navigation, issues exactly one scrollIntoView
call on the matching element with behavior smooth and block start, and
pushes the hash into history; pushState contributes no scroll, so the
scroll list has length one (no additional jump). -/
theorem c6_match_scrolls_and_pushes (ids : List String) (href el : String)
    (hl : isAnchorLink href = true) (hm : querySelectorId ids href = some el) :
    anchorClickHandler ids href =
      { defaultPrevented := true
        scrolls := [{ elementId := el, behavior := "smooth", blockAlign := "start" }]
        historyPushes := [href] } ∧
    (anchorClickHandler ids href).scrolls.length = 1 := by
  unfold anchorClickHandler
  rw [hm]
  exact ⟨rfl, rfl⟩

/-- C6 witness: the theorem at a concrete document containing the target
element section2. -/
theorem c6_match_scrolls_and_pushes_witness :
    anchorClickHandler ["section2"] "#section2" =
      { defaultPrevented := true
        scrolls := [{ elementId := "section2", behavior := "smooth",
                      blockAlign := "start" }]
        historyPushes := ["#section2"] } ∧
    (anchorClickHandler ["section2"] "#section2").scrolls.length = 1 :=
  c6_match_scrolls_and_pushes ["section2"] "#section2" "section2"
    (by decide) (by decide)

/- =========================================================
   C4 — navigation active-state invariant
   ========================================================= -/

theorem applyNavOp_preserves (hasLogo : Bool) (s : NavState) (op : NavOp)
    (h : navConsistent s = true) :
    navConsistent (applyNavOp hasLogo s op) = true := by
  cases op
  case toggle =>
    cases hb : s.hamburgerActive <;>
      simp_all [applyNavOp, toggleNav, navConsistent, jsBoolString]
  case close =>
    simp [applyNavOp, closeNav, navConsistent, jsBoolString]

/-- C4: the initial page state is consistent, and from any consistent
state every sequence of toggleNav/closeNav operations keeps the
hamburger class, the overlay class, the body scroll lock and the two
ARIA attributes mutually consistent (aria-expanded equals the active
state, aria-hidden its negation). -/
theorem c4_nav_invariant (hasLogo : Bool) (s : NavState) (ops : List NavOp)
    (h : navConsistent s = true) :
    navConsistent navInitialState = true ∧
    navConsistent (runNav hasLogo s ops) = true := by
  refine ⟨by decide, ?_⟩
  induction ops generalizing s with
  | nil => exact h
  | cons op ops ih =>
    show navConsistent (List.foldl (applyNavOp hasLogo) s (op :: ops)) = true
    rw [List.foldl_cons]
    exact ih (applyNavOp hasLogo s op) (applyNavOp_preserves hasLogo s op h)

/-- C4 witness: the theorem at the initial state and a concrete sequence
of toggles and closes. -/
theorem c4_nav_invariant_witness :
    navConsistent navInitialState = true ∧
    navConsistent (runNav true navInitialState
      [NavOp.toggle, NavOp.toggle, NavOp.close, NavOp.toggle]) = true :=
  c4_nav_invariant true navInitialState
    [NavOp.toggle, NavOp.toggle, NavOp.close, NavOp.toggle] (by decide)

end VossPhoto

namespace VossPhoto

/- =========================================================
   C5 — gallery filtering is idempotent and exclusive
   ========================================================= -/

theorem count_true_range_beq (n b : Nat) (hb : b < n) :
    ((List.range n).map (fun j => j == b)).count true = 1 := by
  induction n with
  | zero => omega
  | succ n ih =>
    rw [List.range_succ, List.map_append, List.count_append]
    rcases Nat.lt_or_ge b n with h | h
    · rw [ih h]
      have hne : (n == b) = false := by
        simp
        omega
      simp [hne]
    · have hbn : b = n := by omega
      subst hbn
      have h0 : ((List.range b).map (fun j => j == b)).count true = 0 := by
        rw [List.count_eq_zero]
        simp
      simp [h0]

theorem rangeMap_getD_self (n b : Nat) (hb : b < n) :
    (((List.range n).map (fun j => j == b)).getD b false) = true := by
  rw [List.getD_eq_getD_get?, List.get?_eq_getElem?, List.getElem?_map]
  rw [List.getElem?_range hb]
  simp

/-- C5: after any non-empty sequence of filter clicks whose last click is
a button b with data-filter value bf.getD b, exactly one button carries
the is-active marker (the clicked one), every item shows if and only if
the filter is all or matches its category, and the final state depends
only on the last click (any prior clicks and any prior state give the
same result). -/
theorem c5_filter_idempotent_exclusive (bf ic : List String) (s : FilterState)
    (bs : List Nat) (b : Nat) (hb : b < bf.length) :
    ((bs ++ [b]).foldl (clickFilter bf ic) s).activeFlags.count true = 1 ∧
    ((bs ++ [b]).foldl (clickFilter bf ic) s).activeFlags.getD b false = true ∧
    ((bs ++ [b]).foldl (clickFilter bf ic) s).itemStates =
      ic.map (fun c =>
        if bf.getD b "" == "all" || c == bf.getD b "" then
          { display := "", visible := true }
        else { display := "none", visible := false }) ∧
    (∀ (cs : List Nat) (t : FilterState),
      (cs ++ [b]).foldl (clickFilter bf ic) t =
        (bs ++ [b]).foldl (clickFilter bf ic) s) := by
  have hfold : ∀ (l : List Nat) (t : FilterState),
      (l ++ [b]).foldl (clickFilter bf ic) t = clickFilter bf ic t b := by
    intro l t
    rw [List.foldl_append]
    rfl
  rw [hfold bs s]
  refine ⟨?_, ?_, rfl, ?_⟩
  · show ((List.range bf.length).map (fun j => j == b)).count true = 1
    exact count_true_range_beq bf.length b hb
  · show (((List.range bf.length).map (fun j => j == b)).getD b false) = true
    exact rangeMap_getD_self bf.length b hb
  · intro cs t
    rw [hfold cs t]
    exact rfl

/-- C5 witness: two buttons (all, nature), two items (nature, urban),
clicking button 0 then button 1: exactly the nature item stays shown and
only button 1 is active; a different history with the same last click
gives the same state. -/
theorem c5_filter_idempotent_exclusive_witness :
    (([0] ++ [1]).foldl (clickFilter ["all", "nature"] ["nature", "urban"])
        { activeFlags := [], itemStates := [] }).activeFlags.count true = 1 ∧
    (([0] ++ [1]).foldl (clickFilter ["all", "nature"] ["nature", "urban"])
        { activeFlags := [], itemStates := [] }).activeFlags.getD 1 false
      = true ∧
    (([0] ++ [1]).foldl (clickFilter ["all", "nature"] ["nature", "urban"])
        { activeFlags := [], itemStates := [] }).itemStates =
      ["nature", "urban"].map (fun c =>
        if ["all", "nature"].getD 1 "" == "all" ||
            c == ["all", "nature"].getD 1 "" then
          { display := "", visible := true }
        else { display := "none", visible := false }) ∧
    ([] ++ [1]).foldl (clickFilter ["all", "nature"] ["nature", "urban"])
        { activeFlags := [true, true], itemStates := [] } =
      ([0] ++ [1]).foldl (clickFilter ["all", "nature"] ["nature", "urban"])
        { activeFlags := [], itemStates := [] } := by
  have h := c5_filter_idempotent_exclusive ["all", "nature"] ["nature", "urban"]
    { activeFlags := [], itemStates := [] } [0] 1 (by decide)
  exact ⟨h.1, h.2.1, h.2.2.1, h.2.2.2 [] { activeFlags := [true, true], itemStates := [] }⟩

/- =========================================================
   C7 — header scrolled marker, strict 50px threshold
   ========================================================= -/

/-- C7: after one run of updateHeader (including the eager run at
initialization) the is-scrolled marker is present if and only if
scrollY is strictly greater than 50, whatever the prior class state;
in particular scrollY 49 and 50 leave it absent and 51 leaves it
present. -/
theorem c7_header_scrolled_threshold :
    (∀ (y : ℚ) (h : Bool), updateHeader y h = decide (y > 50)) ∧
    (∀ (y : ℚ) (h : Bool), initHeaderScrollEager y h = decide (y > 50)) ∧
    (∀ h : Bool, updateHeader 49 h = false) ∧
    (∀ h : Bool, updateHeader 50 h = false) ∧
    (∀ h : Bool, updateHeader 51 h = true) := by
  have key : ∀ (y : ℚ) (h : Bool), updateHeader y h = decide (y > 50) := by
    intro y h
    unfold updateHeader
    by_cases hy : y > 50 <;> simp [hy]
  refine ⟨key, fun y h => key y h, ?_, ?_, ?_⟩
  · intro h
    rw [key 49 h]
    norm_num
  · intro h
    rw [key 50 h]
    norm_num
  · intro h
    rw [key 51 h]
    norm_num

/- =========================================================
   C8 — swipe threshold
   ========================================================= -/

theorem handleSwipe_below (items : List GalleryItem) (st : LightboxState)
    (h : |st.touchStartX - st.touchEndX| < 50) : handleSwipe items st = st := by
  unfold handleSwipe
  rw [if_pos h]

theorem handleSwipe_next (items : List GalleryItem) (st : LightboxState)
    (h : 50 ≤ st.touchStartX - st.touchEndX) :
    handleSwipe items st = nextImage items st := by
  have h1 : ¬(|st.touchStartX - st.touchEndX| < 50) :=
    not_lt.mpr (h.trans (le_abs_self _))
  have h2 : st.touchStartX - st.touchEndX > 0 := by omega
  unfold handleSwipe
  rw [if_neg h1, if_pos h2]

theorem handleSwipe_prev (items : List GalleryItem) (st : LightboxState)
    (h : st.touchStartX - st.touchEndX ≤ -50) :
    handleSwipe items st = prevImage items st := by
  have h50 : (50 : Int) ≤ -(st.touchStartX - st.touchEndX) := by omega
  have h1 : ¬(|st.touchStartX - st.touchEndX| < 50) :=
    not_lt.mpr (h50.trans (neg_le_abs _))
  have h2 : ¬(st.touchStartX - st.touchEndX > 0) := by omega
  unfold handleSwipe
  rw [if_neg h1, if_neg h2]

/-- C8 counterexample: a recorded gesture with horizontal delta exactly
50 (touchStartX 50, touchEndX 0) does NOT exceed the 50px threshold,
yet handleSwipe changes the index — the code compares abs(diff) < 50
and proceeds at equality, so the claimed strict threshold is wrong. -/
theorem c8_boundary_delta_triggers :
    ¬(50 < |stSwipe50.touchStartX - stSwipe50.touchEndX|) ∧
    (handleSwipe twoItems stSwipe50).currentIndex ≠ stSwipe50.currentIndex := by
  exact ⟨by decide, by decide⟩

/-- C8 amended: the swipe handler ignores a gesture exactly when the
absolute horizontal delta is strictly below 50 (so a delta of exactly
50 already triggers); a delta of at least 50 with start minus end
positive triggers next, and a delta of at most -50 triggers prev. -/
theorem c8_swipe_threshold (items : List GalleryItem) (st : LightboxState) :
    (|st.touchStartX - st.touchEndX| < 50 → handleSwipe items st = st) ∧
    (50 ≤ st.touchStartX - st.touchEndX →
      handleSwipe items st = nextImage items st) ∧
    (st.touchStartX - st.touchEndX ≤ -50 →
      handleSwipe items st = prevImage items st) :=
  ⟨handleSwipe_below items st, handleSwipe_next items st,
    handleSwipe_prev items st⟩

/-- C8 witness: a 100px drag left triggers next, and an idle gesture
(delta 0) is ignored. -/
theorem c8_swipe_threshold_witness :
    handleSwipe twoItems stInactiveTouch = nextImage twoItems stInactiveTouch ∧
    handleSwipe twoItems sampleState = sampleState := by
  exact ⟨(c8_swipe_threshold twoItems stInactiveTouch).2.1 (by decide),
    (c8_swipe_threshold twoItems sampleState).1 (by decide)⟩

/- =========================================================
   C9 — lazy image loaded marker
   ========================================================= -/

/-- C9: for an image without the is-loaded class, after initialization
and at most one load-finished event, the marker is present exactly when
the image was already complete with non-zero natural height at
initialization or a load/error event fired; both success and failure
add the marker, failure additionally emits the console.warn diagnostic
(unless the image was marked immediately, in which case no listener is
registered and no warning can fire), and success emits nothing. -/
theorem c9_lazy_loaded_marker (img : LazyImg) (h0 : img.classLoaded = false) :
    ((runLazyImage img none).1.classLoaded = true ↔
      img.complete = true ∧ img.naturalHeight ≠ 0) ∧
    (∀ e, (runLazyImage img (some e)).1.classLoaded = true) ∧
    ((runLazyImage img (some LoadEvent.failure)).2 =
      if img.complete && img.naturalHeight != 0 then []
      else ["Failed to load image: " ++ img.src]) ∧
    ((runLazyImage img (some LoadEvent.success)).2 = []) := by
  by_cases hc : (img.complete && img.naturalHeight != 0) = true
  · have hp : img.complete = true ∧ img.naturalHeight ≠ 0 := by
      rcases Bool.and_eq_true_iff.mp hc with ⟨h1, h2⟩
      exact ⟨h1, by simpa using h2⟩
    refine ⟨?_, ?_, ?_, ?_⟩
    · simp [runLazyImage, initLazyImage, hc, hp]
    · intro e
      cases e <;> simp [runLazyImage, initLazyImage, fireImgEvent, hc]
    · simp [runLazyImage, initLazyImage, fireImgEvent, hc]
    · simp [runLazyImage, initLazyImage, fireImgEvent, hc]
  · have hcf : (img.complete && img.naturalHeight != 0) = false :=
      Bool.not_eq_true _ |>.mp hc
    have hnp : ¬(img.complete = true ∧ img.naturalHeight ≠ 0) := by
      intro ⟨h1, h2⟩
      rw [h1] at hcf
      simp at hcf
      exact h2 hcf
    refine ⟨?_, ?_, ?_, ?_⟩
    · simp [runLazyImage, initLazyImage, hcf, h0, hnp]
    · intro e
      cases e <;> simp [runLazyImage, initLazyImage, fireImgEvent, hcf]
    · simp [runLazyImage, initLazyImage, fireImgEvent, hcf]
    · simp [runLazyImage, initLazyImage, fireImgEvent, hcf]

/-- C9 witness: a fresh incomplete image is not marked when nothing
fires, is marked on success and on failure, and failure emits the
diagnostic. -/
theorem c9_lazy_loaded_marker_witness :
    ((runLazyImage imgFresh none).1.classLoaded = true ↔
      imgFresh.complete = true ∧ imgFresh.naturalHeight ≠ 0) ∧
    (runLazyImage imgFresh (some LoadEvent.failure)).1.classLoaded = true ∧
    ((runLazyImage imgFresh (some LoadEvent.failure)).2 =
      if imgFresh.complete && imgFresh.naturalHeight != 0 then []
      else ["Failed to load image: " ++ imgFresh.src]) ∧
    ((runLazyImage imgFresh (some LoadEvent.success)).2 = []) := by
  have h := c9_lazy_loaded_marker imgFresh (by decide)
  exact ⟨h.1, h.2.1 LoadEvent.failure, h.2.2.1, h.2.2.2⟩

/- =========================================================
   C10 — touch swipe is not gated on the lightbox being open
   ========================================================= -/

/-- C10: touchend runs handleSwipe with no check of the is-active class:
for a lightbox that is NOT active, a touchend whose recorded delta meets
the threshold still navigates (the index becomes next or prev of the
old index and actually changes when there are at least two images),
whereas the keydown handler returns early and leaves the state unchanged
for every key while the lightbox is not active. -/
theorem c10_touchend_not_gated (items : List GalleryItem) (st : LightboxState)
    (x : Int) (hact : st.active = false) (hN : 2 ≤ items.length)
    (hi : st.currentIndex < items.length)
    (hd : 50 ≤ |st.touchStartX - x|) :
    ((touchendHandler items st x).currentIndex =
        nextIndex st.currentIndex items.length ∨
      (touchendHandler items st x).currentIndex =
        prevIndex st.currentIndex items.length) ∧
    (touchendHandler items st x).currentIndex ≠ st.currentIndex ∧
    (∀ key, keydownHandler items st key = st) := by
  have hkey : ∀ key, keydownHandler items st key = st := by
    intro key
    simp [keydownHandler, hact]
  rcases le_or_lt 50 (st.touchStartX - x) with hpos | hrest
  · have hth : touchendHandler items st x =
        nextImage items { st with touchEndX := x } :=
      handleSwipe_next items { st with touchEndX := x } hpos
    refine ⟨Or.inl ?_, ?_, hkey⟩
    · rw [hth, nextImage_currentIndex]
    · rw [hth, nextImage_currentIndex]
      exact nextIndex_ne st.currentIndex items.length hN hi
  · have hneg : st.touchStartX - x ≤ -50 := by
      rcases abs_cases (st.touchStartX - x) with ⟨he, hge⟩ | ⟨he, hlt⟩
      · rw [he] at hd
        omega
      · rw [he] at hd
        omega
    have hth : touchendHandler items st x =
        prevImage items { st with touchEndX := x } :=
      handleSwipe_prev items { st with touchEndX := x } hneg
    refine ⟨Or.inr ?_, ?_, hkey⟩
    · rw [hth, prevImage_currentIndex]
    · rw [hth, prevImage_currentIndex]
      exact prevIndex_ne st.currentIndex items.length hN hi

/-- C10 witness: a closed (inactive) lightbox over two images, a 100px
drag left ending at screenX 0: touchend changes the index while an
ArrowRight keydown does nothing. -/
theorem c10_touchend_not_gated_witness :
    ((touchendHandler twoItems stInactiveTouch 0).currentIndex =
        nextIndex stInactiveTouch.currentIndex twoItems.length ∨
      (touchendHandler twoItems stInactiveTouch 0).currentIndex =
        prevIndex stInactiveTouch.currentIndex twoItems.length) ∧
    (touchendHandler twoItems stInactiveTouch 0).currentIndex ≠
      stInactiveTouch.currentIndex ∧
    keydownHandler twoItems stInactiveTouch "ArrowRight" = stInactiveTouch := by
  have h := c10_touchend_not_gated twoItems stInactiveTouch 0 rfl
    (by decide) (by decide) (by decide)
  exact ⟨h.1, h.2.1, h.2.2 "ArrowRight"⟩

end VossPhoto
